import Mathlib

/-!
Verification of the `data-analyzer-front` client against its design
specification.  The development shallowly embeds the two source files,
`src/services/api.js` and `src/components/Dashboard.js`, as pure Lean
functions: JavaScript/JSON values become the inductive `JSValue` (numbers as
rationals, which cover every JSON numeral; truthiness is all the code ever
asks of them), fallible operations return `Except`, and the HTTP layer is
abstracted by an `HttpResult` argument describing what the network did, so
that each operation is a total function of its inputs and the network's
behaviour.
-/

namespace DataAnalyzerFront

/-- JavaScript values as the client manipulates them.  JSON numbers are
finite decimals, hence rationals; `undefined` is included because absent
object properties read as `undefined` in JavaScript. -/
inductive JSValue : Type where
  | null : JSValue
  | undefined : JSValue
  | bool (b : Bool) : JSValue
  | num (q : ℚ) : JSValue
  | str (s : String) : JSValue
  | arr (elems : List JSValue) : JSValue
  | obj (fields : List (String × JSValue)) : JSValue

/-- JavaScript truthiness: `null`, `undefined`, `false`, `0`, and `""` are
falsy; every object and array is truthy. -/
def truthy : JSValue → Bool
  | .null => false
  | .undefined => false
  | .bool b => b
  | .num q => decide (q ≠ 0)
  | .str s => decide (s ≠ "")
  | .arr _ => true
  | .obj _ => true

/-- The JavaScript `a || b` operator: `a` when truthy, otherwise `b`. -/
def jsOr (a b : JSValue) : JSValue :=
  if truthy a then a else b

/-- Property read on a value that is not `null`/`undefined`.  On an object,
the stored value (first binding wins; a real JavaScript object has unique
keys); on any other value, `undefined` — faithful for every key the client
reads, none of which is a built-in property of strings or arrays. -/
def jsGet (v : JSValue) (k : String) : JSValue :=
  match v with
  | .obj fields => (fields.lookup k).getD .undefined
  | _ => .undefined

/-- Property read as JavaScript performs it: reading a property of `null` or
`undefined` throws a `TypeError`. -/
def getProp (v : JSValue) (k : String) : Except Unit JSValue :=
  match v with
  | .null => .error ()
  | .undefined => .error ()
  | _ => .ok (jsGet v k)

/-! Documented empty defaults of `formatAnalysisData` (api.js:142-152). -/

def defaultBasicInfo : JSValue := .obj []

def defaultMissingData : JSValue :=
  .obj [("columns_with_missing", .arr []), ("total_missing_percentage", .num 0)]

def defaultDuplicates : JSValue :=
  .obj [("total_duplicates", .num 0), ("percentage", .num 0),
        ("columns_contributing", .arr [])]

def defaultDataQuality : JSValue :=
  .obj [("completeness", .num 0), ("consistency", .num 0),
        ("validity", .num 0), ("uniqueness", .num 0)]

def defaultOutliers : JSValue := .obj [("columns_with_outliers", .arr [])]

def defaultCorrelationMatrix : JSValue := .arr []

def defaultColumnStatistics : JSValue := .obj []

def defaultRecommendations : JSValue :=
  .obj [("critical", .arr []), ("moderate", .arr []), ("optional", .arr [])]

def defaultAnalysisStatus : JSValue := .str "unknown"

/-- The nine documented fields of a normalized `AnalysisReport`. -/
def reportFields : List String :=
  ["basic_info", "missing_data", "duplicates", "data_quality", "outliers",
   "correlation_matrix", "column_statistics", "recommendations",
   "analysis_status"]

/-- The documented empty default of each report field. -/
def defaultFor : String → JSValue
  | "basic_info" => defaultBasicInfo
  | "missing_data" => defaultMissingData
  | "duplicates" => defaultDuplicates
  | "data_quality" => defaultDataQuality
  | "outliers" => defaultOutliers
  | "correlation_matrix" => defaultCorrelationMatrix
  | "column_statistics" => defaultColumnStatistics
  | "recommendations" => defaultRecommendations
  | "analysis_status" => defaultAnalysisStatus
  | _ => .undefined

/-- The object literal returned by `formatAnalysisData` (api.js:142-152),
built from the extracted `analysis` value.  Every property read inside the
literal is on `analysis`, which at this point is never `null`/`undefined`
(see `formatAnalysisData`), so the total `jsGet` is exact here. -/
def mkReport (analysis : JSValue) : JSValue :=
  .obj [
    ("basic_info", jsOr (jsGet analysis "basic_info") defaultBasicInfo),
    ("missing_data", jsOr (jsGet analysis "missing_data") defaultMissingData),
    ("duplicates", jsOr (jsGet analysis "duplicates") defaultDuplicates),
    ("data_quality", jsOr (jsGet analysis "data_quality") defaultDataQuality),
    ("outliers", jsOr (jsGet analysis "outliers") defaultOutliers),
    ("correlation_matrix",
      jsOr (jsGet analysis "correlation_matrix") defaultCorrelationMatrix),
    ("column_statistics",
      jsOr (jsGet analysis "column_statistics") defaultColumnStatistics),
    ("recommendations",
      jsOr (jsGet analysis "recommendations") defaultRecommendations),
    ("analysis_status",
      jsOr (jsGet analysis "analysis_status") defaultAnalysisStatus)
  ]

/-- `formatAnalysisData` (api.js:137-157).  The only expression in the `try`
block that can throw is the very first property read `rawAnalysis.analysis`
(a `TypeError` when `rawAnalysis` is `null`/`undefined`); the `catch` block
rewraps it.  `analysis = rawAnalysis.analysis || rawAnalysis` is truthy or
equal to the already-dereferenced `rawAnalysis`, so the later reads cannot
throw. -/
def formatAnalysisData (rawAnalysis : JSValue) : Except String JSValue :=
  match getProp rawAnalysis "analysis" with
  | .error _ => .error "Error al procesar los datos del análisis"
  | .ok a => .ok (mkReport (jsOr a rawAnalysis))

/-- String coercion `String(v)`, used by `new Error(v)` when a non-string
reaches an `Error` constructor.  Only the `str` branch is exercised by any
theorem below; the other branches are the usual JavaScript coercions (number
formatting approximated by Lean's rational printing). -/
def jsToString : JSValue → String
  | .str s => s
  | .bool b => if b then "true" else "false"
  | .null => "null"
  | .undefined => "undefined"
  | .num q => toString q
  | .arr _ => ""
  | .obj _ => "[object Object]"

/-- Does `pat` occur at the head of the second list? -/
def leadMatch : List Char → List Char → Bool
  | [], _ => true
  | _ :: _, [] => false
  | p :: ps, c :: cs => p == c && leadMatch ps cs

/-- Does `pat` occur anywhere in the second list? -/
def hasSub (pat : List Char) : List Char → Bool
  | [] => leadMatch pat []
  | c :: cs => leadMatch pat (c :: cs) || hasSub pat cs

/-- JavaScript `String.prototype.includes`. -/
def strIncludes (s pat : String) : Bool :=
  hasSub pat.data s.data

/-- JavaScript `String.prototype.toLowerCase`, characterwise.  (`toLowerCase`
maps no character outside A-Z onto `c`, `s`, `v` or `.`, so lowering only
A-Z is exact for the `.csv` suffix test below.) -/
def jsToLowerCase (s : String) : String :=
  String.mk (s.data.map Char.toLower)

/-- JavaScript `String.prototype.endsWith`: the reversed pattern heads the
reversed string. -/
def jsEndsWith (s pat : String) : Bool :=
  leadMatch pat.data.reverse s.data.reverse

/-- A browser `File` as the client reads it: its `name` and `size` (bytes). -/
structure JSFile : Type where
  name : String
  size : Nat

/-- What the network did for one HTTP request issued through `apiClient`:
the server answered with a status, status text and parsed body; or the
request went out and no response came back; or the request could not even be
constructed.  These are exactly the three branches the axios response
interceptor distinguishes (api.js:44-53). -/
inductive HttpResult : Type where
  | response (status : Nat) (statusText : String) (body : JSValue) : HttpResult
  | noResponse : HttpResult
  | requestSetupError : HttpResult

/-- The spec's error taxonomy, mapped onto the three interceptor branches:
a response with a non-2xx status, no response at all, or a local
request-construction failure. -/
inductive ApiError : Type where
  | serverError (status : Nat) (message : String) : ApiError
  | networkError (message : String) : ApiError
  | requestConfigError (message : String) : ApiError

/-- The message of the `Error` the interceptor throws when the server
responded with an error status (api.js:46):
`error.response.data.error || Error ${status}: ${statusText}`.  Reading
`.error` on a `null`/`undefined` body would itself throw a `TypeError`
inside the interceptor; its runtime-defined message is abstracted as
"TypeError" (no theorem relies on that branch's text). -/
def interceptorMessage (status : Nat) (statusText : String) (data : JSValue) :
    String :=
  match data with
  | .null => "TypeError"
  | .undefined => "TypeError"
  | _ =>
    let e := jsGet data "error"
    if truthy e then jsToString e
    else "Error " ++ toString status ++ ": " ++ statusText

/-- One request through `apiClient` with its response interceptor
(api.js:30-55).  Axios resolves exactly for statuses in [200, 300); every
other outcome reaches the interceptor's error handler, which classifies it
by whether a response / a request exists. -/
def apiClientRequest (net : HttpResult) : Except ApiError JSValue :=
  match net with
  | .response status statusText body =>
    if 200 ≤ status ∧ status < 300 then .ok body
    else .error (.serverError status (interceptorMessage status statusText body))
  | .noResponse =>
    .error (.networkError
      "No se pudo conectar con el servidor. Verifica que la API esté ejecutándose.")
  | .requestSetupError =>
    .error (.requestConfigError "Error en la configuración de la petición")

/-- `checkAPIHealth` (api.js:126-134): a GET through `apiClient`; the catch
block logs and rethrows, so the outcome is the request's outcome. -/
def checkAPIHealth (net : HttpResult) : Except ApiError JSValue :=
  apiClientRequest net

/-- `testConnection` (api.js:160-167): `true` when the health check
returned, `false` on any thrown error. -/
def testConnection (net : HttpResult) : Bool :=
  match checkAPIHealth net with
  | .ok _ => true
  | .error _ => false

/-- Result of one `uploadAndAnalyzeDataset` call: a validation `Error`
thrown before the request is built, an error from the dispatched request, or
the response data.  The outer catch block (api.js:95-98) rethrows, so the
classification is preserved. -/
inductive UploadResult : Type where
  | validationError (message : String) : UploadResult
  | apiError (e : ApiError) : UploadResult
  | success (data : JSValue) : UploadResult

/-- The post-validation phase of `uploadAndAnalyzeDataset`: the POST to
`/upload/` through `apiClient` (api.js:81-93). -/
def networkOutcome (net : HttpResult) : UploadResult :=
  match apiClientRequest net with
  | .ok body => .success body
  | .error e => .apiError e

/-- `uploadAndAnalyzeDataset` (api.js:58-99): reject a missing file, a name
not ending in `.csv` after lowercasing, or a size over `50 * 1024 * 1024`
bytes, in that order, before any request is dispatched; otherwise the
outcome is the network's. -/
def uploadAndAnalyzeDataset (file : Option JSFile) (name : Option String)
    (net : HttpResult) : UploadResult :=
  match file with
  | none => .validationError "No se proporcionó archivo"
  | some f =>
    if !(jsEndsWith (jsToLowerCase f.name) ".csv") then
      .validationError "Solo se admiten archivos CSV"
    else if f.size > 50 * 1024 * 1024 then
      .validationError "El archivo es demasiado grande. Máximo 50MB"
    else networkOutcome net

/-- The message carried by the `Error` a failed request throws. -/
def apiErrorMessage : ApiError → String
  | .serverError _ m => m
  | .networkError m => m
  | .requestConfigError m => m

/-- The view's connectivity indicator (Dashboard.js:13). -/
inductive ApiStatus : Type where
  | unknown : ApiStatus
  | online : ApiStatus
  | offline : ApiStatus
deriving DecidableEq

/-- The `DatasetDashboard` component's state hooks (Dashboard.js:9-14). -/
structure DashState : Type where
  datasetInfo : Option JSValue
  loading : Bool
  error : Option String
  file : Option JSFile
  apiStatus : ApiStatus
  uploadProgress : Nat

/-- The `catch` block of `analyzeDataset` (Dashboard.js:63-82), applied to
the thrown error's message: default an empty message, specialize messages
mentioning `500`/`timeout`/`decode`, store the result in `error`, and flip
the connectivity indicator offline when the original message mentions
`conectar` or `servidor`. -/
def analyzeCatch (s : DashState) (msg : String) : DashState :=
  let errorMessage := if msg = "" then "Error al analizar el dataset" else msg
  let errorMessage :=
    if strIncludes errorMessage "500" then
      "Error interno del servidor. Revisa la consola del backend para más detalles."
    else if strIncludes errorMessage "timeout" then
      "El análisis está tomando demasiado tiempo. Intenta con un archivo más pequeño."
    else if strIncludes errorMessage "decode" then
      "Error de codificación. Guarda tu archivo CSV con codificación UTF-8."
    else errorMessage
  let s1 := { s with error := some errorMessage }
  if strIncludes msg "conectar" || strIncludes msg "servidor" then
    { s1 with apiStatus := ApiStatus.offline }
  else s1

/-- `analyzeDataset` (Dashboard.js:30-87) as a state transformer, with the
network's behaviour for the one upload it may dispatch passed in.  Guards:
no file, then offline, each setting only `error`.  Otherwise set loading,
clear error/progress/previous report, run the upload; on success format and
store the report and mark the API online; on a thrown error run the catch
block; the `finally` block always clears `loading` and `uploadProgress`. -/
def analyzeDataset (s : DashState) (net : HttpResult) : DashState :=
  match s.file with
  | none => { s with error := some "Por favor, selecciona un archivo CSV" }
  | some f =>
    if s.apiStatus = ApiStatus.offline then
      { s with error := some "No se puede conectar con la API. Verifica que el servidor esté ejecutándose." }
    else
      let s1 := { s with loading := true, error := none, uploadProgress := 0,
                         datasetInfo := none }
      let s2 :=
        match uploadAndAnalyzeDataset (some f) (some f.name) net with
        | .success raw =>
          match formatAnalysisData raw with
          | .ok formatted =>
            { s1 with datasetInfo := some formatted, apiStatus := ApiStatus.online }
          | .error m => analyzeCatch s1 m
        | .validationError m => analyzeCatch s1 m
        | .apiError e => analyzeCatch s1 (apiErrorMessage e)
      { s2 with loading := false, uploadProgress := 0 }

/-- `handleFileUpload` (Dashboard.js:89-116): nothing selected does nothing;
a name not ending in `.csv` (lowercased) or a size over 50 MB only sets a
message; otherwise store the file and clear the previous report and error. -/
def handleFileUpload (s : DashState) (uploadedFile : Option JSFile) : DashState :=
  match uploadedFile with
  | none => s
  | some f =>
    if !(jsEndsWith (jsToLowerCase f.name) ".csv") then
      { s with error := some "Por favor, sube un archivo CSV válido" }
    else if f.size > 50 * 1024 * 1024 then
      { s with error := some "El archivo es demasiado grande. Máximo 50MB" }
    else
      { s with file := some f, datasetInfo := none, error := none }

/-! ### Lemmas about `||` and the normalization -/

theorem jsOr_undefined (d : JSValue) : jsOr JSValue.undefined d = d := rfl

theorem jsOr_absorb (x d : JSValue) (hd : truthy d = true) :
    jsOr (jsOr x d) d = jsOr x d := by
  cases hx : truthy x <;> simp [jsOr, hx, hd]

theorem mkReport_mkReport (a : JSValue) : mkReport (mkReport a) = mkReport a := by
  show JSValue.obj [
    ("basic_info",
      jsOr (jsOr (jsGet a "basic_info") defaultBasicInfo) defaultBasicInfo),
    ("missing_data",
      jsOr (jsOr (jsGet a "missing_data") defaultMissingData) defaultMissingData),
    ("duplicates",
      jsOr (jsOr (jsGet a "duplicates") defaultDuplicates) defaultDuplicates),
    ("data_quality",
      jsOr (jsOr (jsGet a "data_quality") defaultDataQuality) defaultDataQuality),
    ("outliers",
      jsOr (jsOr (jsGet a "outliers") defaultOutliers) defaultOutliers),
    ("correlation_matrix",
      jsOr (jsOr (jsGet a "correlation_matrix") defaultCorrelationMatrix)
        defaultCorrelationMatrix),
    ("column_statistics",
      jsOr (jsOr (jsGet a "column_statistics") defaultColumnStatistics)
        defaultColumnStatistics),
    ("recommendations",
      jsOr (jsOr (jsGet a "recommendations") defaultRecommendations)
        defaultRecommendations),
    ("analysis_status",
      jsOr (jsOr (jsGet a "analysis_status") defaultAnalysisStatus)
        defaultAnalysisStatus)
  ] = mkReport a
  rw [jsOr_absorb (jsGet a "basic_info") defaultBasicInfo rfl,
      jsOr_absorb (jsGet a "missing_data") defaultMissingData rfl,
      jsOr_absorb (jsGet a "duplicates") defaultDuplicates rfl,
      jsOr_absorb (jsGet a "data_quality") defaultDataQuality rfl,
      jsOr_absorb (jsGet a "outliers") defaultOutliers rfl,
      jsOr_absorb (jsGet a "correlation_matrix") defaultCorrelationMatrix rfl,
      jsOr_absorb (jsGet a "column_statistics") defaultColumnStatistics rfl,
      jsOr_absorb (jsGet a "recommendations") defaultRecommendations rfl,
      jsOr_absorb (jsGet a "analysis_status") defaultAnalysisStatus rfl]
  rfl

theorem formatAnalysisData_mkReport (a : JSValue) :
    formatAnalysisData (mkReport a) = Except.ok (mkReport a) := by
  show Except.ok (mkReport (jsOr (jsGet (mkReport a) "analysis") (mkReport a)))
    = Except.ok (mkReport a)
  rw [show jsGet (mkReport a) "analysis" = JSValue.undefined from rfl,
      jsOr_undefined, mkReport_mkReport]

/-- Whenever `formatAnalysisData` returns, its result is `mkReport` of the
extracted analysis value. -/
theorem formatAnalysisData_shape (v w : JSValue)
    (h : formatAnalysisData v = Except.ok w) :
    w = mkReport (jsOr (jsGet v "analysis") v) := by
  cases v with
  | null => exact Except.noConfusion h
  | undefined => exact Except.noConfusion h
  | bool b => exact (Except.ok.inj h).symm
  | num q => exact (Except.ok.inj h).symm
  | str s => exact (Except.ok.inj h).symm
  | arr elems => exact (Except.ok.inj h).symm
  | obj fields => exact (Except.ok.inj h).symm

/-! ### Claims about `formatAnalysisData` -/

/-- C1: for every raw JSON object — the report at top level or nested under
an `analysis` key — `formatAnalysisData` returns (does not throw) an object
carrying all nine documented fields, and every field absent from the
effective analysis value is its documented empty default. -/
theorem formatAnalysisData_normalizes (fs : List (String × JSValue)) :
    ∃ out : List (String × JSValue),
      formatAnalysisData (JSValue.obj fs) = Except.ok (JSValue.obj out) ∧
      (∀ k ∈ reportFields, ∃ v, out.lookup k = some v) ∧
      (∀ k ∈ reportFields,
        jsGet (jsOr (jsGet (JSValue.obj fs) "analysis") (JSValue.obj fs)) k
          = JSValue.undefined →
        out.lookup k = some (defaultFor k)) := by
  refine ⟨_, rfl, ?_, ?_⟩
  · intro k hk
    fin_cases hk <;> exact ⟨_, rfl⟩
  · intro k hk h
    fin_cases hk <;> rw [h] <;> rfl

/-- C1 witness: the empty object normalizes. -/
theorem formatAnalysisData_normalizes_witness :
    ∃ out : List (String × JSValue),
      formatAnalysisData (JSValue.obj []) = Except.ok (JSValue.obj out) := by
  obtain ⟨out, h, -, -⟩ := formatAnalysisData_normalizes []
  exact ⟨out, h⟩

/-- C2 counterexample: the claim says every non-object input (in particular
a number) makes `formatAnalysisData` fail, but on the number `5` it returns
normally: property access on a JavaScript number yields `undefined` instead
of throwing, so every field falls back to its default. -/
theorem formatAnalysisData_num_returns :
    formatAnalysisData (JSValue.num 5) = Except.ok (mkReport (JSValue.num 5)) :=
  rfl

/-- C2 (amended): `formatAnalysisData` fails if and only if its input is
`null` or `undefined`; every other input — objects, but also numbers,
strings and booleans — returns normally. -/
theorem formatAnalysisData_error_iff (v : JSValue) :
    (∃ e, formatAnalysisData v = Except.error e) ↔
      v = JSValue.null ∨ v = JSValue.undefined := by
  cases v <;> simp [formatAnalysisData, getProp]

/-- C2 witness: `null` fails. -/
theorem formatAnalysisData_error_iff_witness :
    ∃ e, formatAnalysisData JSValue.null = Except.error e :=
  (formatAnalysisData_error_iff JSValue.null).mpr (Or.inl rfl)

/-- C9: `formatAnalysisData` is idempotent — applying it to any of its own
successful outputs returns that output unchanged (every stored field is
truthy, so no `||` fallback fires on the second pass, and the output has no
`analysis` key). -/
theorem formatAnalysisData_idempotent (v w : JSValue)
    (h : formatAnalysisData v = Except.ok w) :
    formatAnalysisData w = Except.ok w := by
  have hw := formatAnalysisData_shape v w h
  subst hw
  exact formatAnalysisData_mkReport _

/-- C9 witness at the empty object. -/
theorem formatAnalysisData_idempotent_witness :
    formatAnalysisData (mkReport (JSValue.obj []))
      = Except.ok (mkReport (JSValue.obj [])) :=
  formatAnalysisData_idempotent (JSValue.obj []) (mkReport (JSValue.obj [])) rfl

/-! ### Claims about the API client -/

/-- C3: a file whose lowercased name does not end in `.csv` always fails
validation with the fixed human-readable message, and the outcome is the
same whatever the network would have done — no request is dispatched. -/
theorem upload_rejects_non_csv (f : JSFile) (name : Option String)
    (net : HttpResult) (h : jsEndsWith (jsToLowerCase f.name) ".csv" = false) :
    uploadAndAnalyzeDataset (some f) name net =
      UploadResult.validationError "Solo se admiten archivos CSV" ∧
    "Solo se admiten archivos CSV" ≠ "" ∧
    (∀ net', uploadAndAnalyzeDataset (some f) name net' =
      uploadAndAnalyzeDataset (some f) name net) := by
  refine ⟨by simp [uploadAndAnalyzeDataset, h], by decide, ?_⟩
  intro net'
  simp [uploadAndAnalyzeDataset, h]

/-- C3 witness: a `.txt` file is rejected. -/
theorem upload_rejects_non_csv_witness :
    uploadAndAnalyzeDataset (some ⟨"datos.txt", 1024⟩) none HttpResult.noResponse
      = UploadResult.validationError "Solo se admiten archivos CSV" :=
  (upload_rejects_non_csv ⟨"datos.txt", 1024⟩ none HttpResult.noResponse rfl).1

/-- C4: for a `.csv` file of exactly 52,428,800 bytes validation passes and
the call's outcome is the dispatched request's outcome (never a validation
failure); one byte more fails with the size `ValidationError` instead. -/
theorem upload_size_boundary (f : JSFile) (name : Option String)
    (net : HttpResult) (hcsv : jsEndsWith (jsToLowerCase f.name) ".csv" = true) :
    (f.size = 52428800 →
      uploadAndAnalyzeDataset (some f) name net = networkOutcome net ∧
      ∀ m, networkOutcome net ≠ UploadResult.validationError m) ∧
    (f.size = 52428801 →
      uploadAndAnalyzeDataset (some f) name net =
        UploadResult.validationError "El archivo es demasiado grande. Máximo 50MB") := by
  constructor
  · intro hs
    constructor
    · simp [uploadAndAnalyzeDataset, hcsv, hs]
    · intro m
      cases hnet : apiClientRequest net <;> simp [networkOutcome, hnet]
  · intro hs
    simp [uploadAndAnalyzeDataset, hcsv, hs]

/-- C4 witness at both sides of the 50 MB boundary. -/
theorem upload_size_boundary_witness :
    uploadAndAnalyzeDataset (some ⟨"data.csv", 52428800⟩) none HttpResult.noResponse
      = networkOutcome HttpResult.noResponse ∧
    uploadAndAnalyzeDataset (some ⟨"data.csv", 52428801⟩) none HttpResult.noResponse
      = UploadResult.validationError "El archivo es demasiado grande. Máximo 50MB" :=
  ⟨((upload_size_boundary ⟨"data.csv", 52428800⟩ none HttpResult.noResponse rfl).1 rfl).1,
   (upload_size_boundary ⟨"data.csv", 52428801⟩ none HttpResult.noResponse rfl).2 rfl⟩

/-- C5: `testConnection` always yields a boolean and swallows every failure
kind: `false` for any non-2xx response, for an unreachable endpoint and for
a request-construction error; `true` for any 2xx response. -/
theorem testConnection_total (net : HttpResult) :
    (testConnection net = true ∨ testConnection net = false) ∧
    (∀ status statusText body, ¬(200 ≤ status ∧ status < 300) →
      testConnection (HttpResult.response status statusText body) = false) ∧
    testConnection HttpResult.noResponse = false ∧
    testConnection HttpResult.requestSetupError = false ∧
    (∀ status statusText body, 200 ≤ status → status < 300 →
      testConnection (HttpResult.response status statusText body) = true) := by
  refine ⟨?_, ?_, rfl, rfl, ?_⟩
  · cases h : testConnection net
    · exact Or.inr rfl
    · exact Or.inl rfl
  · intro status statusText body hns
    simp [testConnection, checkAPIHealth, apiClientRequest, hns]
  · intro status statusText body h1 h2
    simp [testConnection, checkAPIHealth, apiClientRequest, h1, h2]

/-- C5 witness: a 500 response, no response, and a 200 response. -/
theorem testConnection_total_witness :
    testConnection (HttpResult.response 500 "Internal Server Error" JSValue.null)
      = false ∧
    testConnection HttpResult.noResponse = false ∧
    testConnection (HttpResult.response 200 "OK" (JSValue.obj [])) = true :=
  ⟨(testConnection_total HttpResult.noResponse).2.1 500 "Internal Server Error"
      JSValue.null (by decide),
   (testConnection_total HttpResult.noResponse).2.2.1,
   (testConnection_total HttpResult.noResponse).2.2.2.2 200 "OK" (JSValue.obj [])
      (by decide) (by decide)⟩

/-- C6 counterexample: the claim says the error message equals the
server-supplied `error` field whenever it is present, but a present empty
`error` field is falsy, so the `||` fallback fires: the thrown message is
`"Error 400: Bad Request"`, not the supplied `""`. -/
theorem upload_serverError_empty_field :
    uploadAndAnalyzeDataset (some ⟨"data.csv", 1024⟩) none
        (HttpResult.response 400 "Bad Request" (JSValue.obj [("error", JSValue.str "")]))
      = UploadResult.apiError (ApiError.serverError 400 "Error 400: Bad Request") ∧
    "Error 400: Bad Request" ≠ "" := by
  exact ⟨rfl, by decide⟩

/-- C6 (amended): for a non-2xx response whose body carries a present and
non-empty string `error` field, the upload fails with a server error of that
status whose message equals the field. -/
theorem upload_serverError_message (f : JSFile) (name : Option String)
    (status : Nat) (statusText m : String) (fields : List (String × JSValue))
    (hcsv : jsEndsWith (jsToLowerCase f.name) ".csv" = true)
    (hsize : f.size ≤ 50 * 1024 * 1024)
    (hstatus : ¬(200 ≤ status ∧ status < 300))
    (herr : fields.lookup "error" = some (JSValue.str m))
    (hm : m ≠ "") :
    uploadAndAnalyzeDataset (some f) name
        (HttpResult.response status statusText (JSValue.obj fields))
      = UploadResult.apiError (ApiError.serverError status m) := by
  have hs : ¬ f.size > 50 * 1024 * 1024 := by omega
  simp [uploadAndAnalyzeDataset, hcsv, hs, networkOutcome, apiClientRequest,
        hstatus, interceptorMessage, jsGet, herr, truthy, hm, jsToString]

/-- C6 witness: status 400 with body `{error: "Invalid CSV"}` yields a
server error whose message is exactly `"Invalid CSV"`. -/
theorem upload_serverError_message_witness :
    uploadAndAnalyzeDataset (some ⟨"data.csv", 1024⟩) none
        (HttpResult.response 400 "Bad Request"
          (JSValue.obj [("error", JSValue.str "Invalid CSV")]))
      = UploadResult.apiError (ApiError.serverError 400 "Invalid CSV") :=
  upload_serverError_message ⟨"data.csv", 1024⟩ none 400 "Bad Request"
    "Invalid CSV" [("error", JSValue.str "Invalid CSV")] rfl (by decide)
    (by decide) rfl (by decide)

/-! ### Claims about the Dashboard view -/

/-- C7: the file selection handler rejects a non-CSV or oversized file by
setting only a non-empty message, leaving the selected file, the stored
report and all other state untouched; a valid CSV of acceptable size is
recorded as selected while the previous report and error are cleared. -/
theorem handleFileUpload_spec (s : DashState) (f : JSFile) :
    ((jsEndsWith (jsToLowerCase f.name) ".csv" = false ∨ f.size > 50 * 1024 * 1024) →
      ∃ m, handleFileUpload s (some f) = { s with error := some m } ∧ m ≠ "") ∧
    (jsEndsWith (jsToLowerCase f.name) ".csv" = true → f.size ≤ 50 * 1024 * 1024 →
      handleFileUpload s (some f) =
        { s with file := some f, datasetInfo := none, error := none }) := by
  constructor
  · intro h
    rcases h with h | h
    · exact ⟨"Por favor, sube un archivo CSV válido",
        by simp [handleFileUpload, h], by decide⟩
    · cases hn : jsEndsWith (jsToLowerCase f.name) ".csv"
      · exact ⟨"Por favor, sube un archivo CSV válido",
          by simp [handleFileUpload, hn], by decide⟩
      · exact ⟨"El archivo es demasiado grande. Máximo 50MB",
          by simp [handleFileUpload, hn, h], by decide⟩
  · intro h1 h2
    have h3 : ¬ f.size > 50 * 1024 * 1024 := by omega
    simp [handleFileUpload, h1, h3]

/-- C7 witness: a rejected `.txt` file and an accepted `.csv` file, from the
same prior state. -/
theorem handleFileUpload_spec_witness :
    (∃ m, handleFileUpload ⟨some (mkReport (JSValue.obj [])), false, some "old",
        some ⟨"old.csv", 7⟩, ApiStatus.online, 0⟩ (some ⟨"notas.txt", 9⟩) =
      ⟨some (mkReport (JSValue.obj [])), false, some m,
        some ⟨"old.csv", 7⟩, ApiStatus.online, 0⟩ ∧ m ≠ "") ∧
    handleFileUpload ⟨some (mkReport (JSValue.obj [])), false, some "old",
        some ⟨"old.csv", 7⟩, ApiStatus.online, 0⟩ (some ⟨"new.csv", 9⟩) =
      ⟨none, false, none, some ⟨"new.csv", 9⟩, ApiStatus.online, 0⟩ :=
  ⟨(handleFileUpload_spec ⟨some (mkReport (JSValue.obj [])), false, some "old",
      some ⟨"old.csv", 7⟩, ApiStatus.online, 0⟩ ⟨"notas.txt", 9⟩).1 (Or.inl rfl),
   (handleFileUpload_spec ⟨some (mkReport (JSValue.obj [])), false, some "old",
      some ⟨"old.csv", 7⟩, ApiStatus.online, 0⟩ ⟨"new.csv", 9⟩).2 rfl (by decide)⟩

/-- C8: the analyze action only sets a message (and ignores the network)
when no file is selected or connectivity is offline; otherwise, when the
upload succeeds and the result formats, it stores the normalized report,
marks the API online, and leaves loading off, the error cleared and the
progress reset. -/
theorem analyzeDataset_spec (s : DashState) (net : HttpResult) :
    (s.file = none →
      analyzeDataset s net =
        { s with error := some "Por favor, selecciona un archivo CSV" }) ∧
    (s.file ≠ none → s.apiStatus = ApiStatus.offline →
      analyzeDataset s net =
        { s with error := some "No se puede conectar con la API. Verifica que el servidor esté ejecutándose." }) ∧
    ((s.file = none ∨ s.apiStatus = ApiStatus.offline) →
      ∀ net', analyzeDataset s net' = analyzeDataset s net) ∧
    (∀ f raw fm, s.file = some f → s.apiStatus ≠ ApiStatus.offline →
      uploadAndAnalyzeDataset (some f) (some f.name) net = UploadResult.success raw →
      formatAnalysisData raw = Except.ok fm →
      analyzeDataset s net =
        { s with loading := false, error := none, uploadProgress := 0,
                 datasetInfo := some fm, apiStatus := ApiStatus.online }) := by
  refine ⟨?_, ?_, ?_, ?_⟩
  · intro h
    simp [analyzeDataset, h]
  · intro hf ho
    cases hfile : s.file with
    | none => exact absurd hfile hf
    | some f => simp [analyzeDataset, hfile, ho]
  · intro h net'
    rcases h with h | h
    · simp [analyzeDataset, h]
    · cases hfile : s.file with
      | none => simp [analyzeDataset, hfile]
      | some f => simp [analyzeDataset, hfile, h]
  · intro f raw fm hf hns hup hfmt
    simp [analyzeDataset, hf, hns, hup, hfmt]

/-- C8 witness: a selected 2-byte-named CSV, connectivity online, a 200
response with an empty-object report — the view stores the fully-defaulted
normalized report and clears loading and error. -/
theorem analyzeDataset_spec_witness :
    analyzeDataset ⟨none, false, some "old", some ⟨"data.csv", 2097152⟩,
        ApiStatus.online, 0⟩ (HttpResult.response 200 "OK" (JSValue.obj [])) =
      ⟨some (mkReport (JSValue.obj [])), false, none, some ⟨"data.csv", 2097152⟩,
        ApiStatus.online, 0⟩ :=
  (analyzeDataset_spec ⟨none, false, some "old", some ⟨"data.csv", 2097152⟩,
      ApiStatus.online, 0⟩ (HttpResult.response 200 "OK" (JSValue.obj []))).2.2.2
    ⟨"data.csv", 2097152⟩ (JSValue.obj []) (mkReport (JSValue.obj []))
    rfl (by decide) rfl rfl

/-- C10: whenever the analyze action gets past its two guards — whatever
the upload then does — the final state has the loading flag off and the
upload progress reset to 0 (the `finally` block). -/
theorem analyzeDataset_clears_loading (s : DashState) (net : HttpResult)
    (f : JSFile) (hf : s.file = some f) (hns : s.apiStatus ≠ ApiStatus.offline) :
    (analyzeDataset s net).loading = false ∧
    (analyzeDataset s net).uploadProgress = 0 := by
  simp only [analyzeDataset, hf]
  rw [if_neg hns]
  exact ⟨rfl, rfl⟩

/-- C10 witness: a failing upload (no response) still ends with loading off
and progress 0. -/
theorem analyzeDataset_clears_loading_witness :
    (analyzeDataset ⟨none, true, none, some ⟨"data.csv", 5⟩, ApiStatus.unknown, 0⟩
        HttpResult.noResponse).loading = false ∧
    (analyzeDataset ⟨none, true, none, some ⟨"data.csv", 5⟩, ApiStatus.unknown, 0⟩
        HttpResult.noResponse).uploadProgress = 0 :=
  analyzeDataset_clears_loading ⟨none, true, none, some ⟨"data.csv", 5⟩,
    ApiStatus.unknown, 0⟩ HttpResult.noResponse ⟨"data.csv", 5⟩ rfl (by decide)
